import Mathlib

/-!
# Verification of the PomPov editor (jsxeaflist)

Shallow embedding of the two source files of the repository:
`src/jsxeaflist-beta1.0.py` (namespace `V10`) and
`src/jsxeaflsit-beta1.1.py` (namespace `V11`).

The embedding models Python strings as Lean `String`, the editor's mutable
object state (`editor_memory`, the two per-volume disk directories with their
config files, the loop flag and the termination constant) as an explicit
`EditorState`, and Python exceptions as an error type threaded through a
state monad `EM` that keeps the state at the point of raise (Python unwinds
the stack but the mutated object survives, so the caller can still observe
the state).

All string helpers are written with structural or fuel-based recursion so
that every closed computation reduces by `rfl` / `decide` in the kernel.
-/

/-! ## Python string primitives -/

/-- Python `str.split(sep)` on character lists (for a non-empty separator):
split at each non-overlapping occurrence of `sep`, scanning left to right.
`acc` holds the (reversed) characters of the current piece; the fuel is
always called with at least `length + 1` so it never runs out. -/
def pySplitGo (sep : List Char) : Nat → List Char → List Char → List (List Char)
  | 0, acc, rest => [acc.reverse ++ rest]
  | _ + 1, acc, [] => [acc.reverse]
  | fuel + 1, acc, c :: cs =>
    if sep.isPrefixOf (c :: cs) then
      acc.reverse :: pySplitGo sep fuel [] (List.drop sep.length (c :: cs))
    else
      pySplitGo sep fuel (c :: acc) cs

/-- Python `s.split(sep)` (a non-empty separator, no maxsplit). -/
def pySplit (s sep : String) : List String :=
  (pySplitGo sep.data (s.data.length + 1) [] s.data).map String.mk

/-- `String.intercalate` written structurally, used to model Python's
`maxsplit` behaviour by re-joining the unsplit remainder. -/
def pyJoin (sep : String) : List String → String
  | [] => ""
  | [x] => x
  | x :: y :: rest => x ++ sep ++ pyJoin sep (y :: rest)

/-- Python `s.split(sep, maxn)`: at most `maxn` splits; the remainder is kept
as one final piece.  Rejoining the tail of the full split with `sep`
reconstructs exactly the unsplit remainder, because splits are leftmost
non-overlapping occurrences. -/
def pySplitMax (s sep : String) (maxn : Nat) : List String :=
  let l := pySplit s sep
  if l.length ≤ maxn + 1 then l
  else l.take maxn ++ [pyJoin sep (l.drop maxn)]

/-- Python `s.replace(pat, rep)` for a non-empty pattern: replace every
non-overlapping occurrence, scanning left to right.  Fuel-based; called with
fuel `length + 1`, sufficient since each step consumes at least one
character. -/
def pyReplaceGo (pat rep : List Char) : Nat → List Char → List Char
  | 0, rest => rest
  | _ + 1, [] => []
  | fuel + 1, c :: cs =>
    if pat.isPrefixOf (c :: cs) then
      rep ++ pyReplaceGo pat rep fuel (List.drop pat.length (c :: cs))
    else
      c :: pyReplaceGo pat rep fuel cs

/-- Python `s.replace(pat, rep)` (non-empty `pat`; the sources never replace
an empty pattern). -/
def pyReplace (s pat rep : String) : String :=
  String.mk (pyReplaceGo pat.data rep.data (s.data.length + 1) s.data)

/-- Python `s.startswith(pre)`. -/
def pyStartsWith (pre s : String) : Bool :=
  pre.data.isPrefixOf s.data

/-- Python `s.strip()` (the program only ever contains ASCII whitespace). -/
def pyStrip (s : String) : String :=
  String.mk (((s.data.dropWhile Char.isWhitespace).reverse.dropWhile
    Char.isWhitespace).reverse)

/-- Python `s.rstrip(c)` for a one-character strip set: drop every trailing
occurrence of `c`. -/
def pyRstrip (s : String) (c : Char) : String :=
  String.mk ((s.data.reverse.dropWhile (fun a => a == c)).reverse)

/-- Python `s.upper()` (ASCII, which covers every token of the language). -/
def pyUpper (s : String) : String :=
  String.mk (s.data.map Char.toUpper)

/-- Python `s.zfill(width)`: left-pad with `'0'` up to `width`.  The sources
only ever apply it to unsigned digit/marker runs, so the sign handling of
the real `zfill` never triggers and is not modelled. -/
def pyZfill (s : String) (width : Nat) : String :=
  if width ≤ s.data.length then s
  else String.mk (List.replicate (width - s.data.length) '0' ++ s.data)

/-- Decimal value of a digit run. -/
def digitsToNat (l : List Char) : Nat :=
  l.foldl (fun n c => 10 * n + (c.toNat - 48)) 0

/-! ## Errors and editor state -/

/-- Python exceptions raised by the sources.  `valueError` covers
unsupported address types, `int()` parse failures and unpacking mismatches;
`fileNotFound` models `FileNotFoundError` from `os.listdir`/`open` on a
missing directory; `indexError` models list subscripts out of range;
`typeError` models `ord()` applied to a non-single-character string.
`outOfFuel` is not a Python exception: it marks exhaustion of the explicit
fuel that models the source's unbounded `while` loop (i.e. the run would not
terminate within the given fuel); it is distinct from every real error and
is never caught. -/
inductive Err where
  | valueError
  | fileNotFound
  | indexError
  | typeError
  | outOfFuel
deriving DecidableEq, Repr

/-- The mutable state of a `PomPovEditor` object together with the part of
the file system it touches.  `editor_memory` is the `P`-address map (an
association list preserving Python-dict insertion order); `filesC`/`filesD`
are the config files (name, stored `value` field) inside the two per-volume
directories; `dirC`/`dirD` record whether those directories currently
exist. -/
structure EditorState where
  editor_memory : List (String × Int)
  filesC : List (String × Int)
  filesD : List (String × Int)
  dirC : Bool
  dirD : Bool
  loop_running : Bool
  terminate_constant : Int
deriving DecidableEq, Repr

/-- The state a fresh `PomPovEditor()` starts in; `dirs` says whether the
two per-volume directories pre-exist on disk (e.g. from a previous run). -/
def initState (dirs : Bool) : EditorState :=
  { editor_memory := [], filesC := [], filesD := [],
    dirC := dirs, dirD := dirs, loop_running := false,
    terminate_constant := 0 }

/-- Computation over the editor state: returns a value or a raised
exception, and in both cases the state as mutated so far. -/
def EM (α : Type) : Type := EditorState → Except Err α × EditorState

instance : Monad EM where
  pure a := fun s => (Except.ok a, s)
  bind x f := fun s =>
    match x s with
    | (Except.ok a, s') => f a s'
    | (Except.error e, s') => (Except.error e, s')

namespace EM

def get : EM EditorState := fun s => (Except.ok s, s)

def modifyS (f : EditorState → EditorState) : EM Unit :=
  fun s => (Except.ok (), f s)

def throw {α : Type} (e : Err) : EM α := fun s => (Except.error e, s)

/-- Lift a pure `Except` computation (list subscript, `int()` parse). -/
def lift {α : Type} (x : Except Err α) : EM α := fun s => (x, s)

end EM

/-- Python list subscript `l[i]`: `IndexError` when out of range. -/
def pyGet {α : Type} (l : List α) (i : Nat) : Except Err α :=
  match l.get? i with
  | some a => Except.ok a
  | none => Except.error Err.indexError

/-- Python `int(s)`: strip whitespace, optional sign, then a non-empty
digit run; anything else raises `ValueError`.  (Underscore separators and
non-ASCII digits never occur in the sources' inputs and are not
modelled.) -/
def pyInt (s : String) : Except Err Int :=
  match (pyStrip s).data with
  | '-' :: rest =>
    if rest ≠ [] ∧ rest.all Char.isDigit then Except.ok (-(digitsToNat rest : Int))
    else Except.error Err.valueError
  | '+' :: rest =>
    if rest ≠ [] ∧ rest.all Char.isDigit then Except.ok (digitsToNat rest : Int)
    else Except.error Err.valueError
  | t =>
    if t ≠ [] ∧ t.all Char.isDigit then Except.ok (digitsToNat t : Int)
    else Except.error Err.valueError

/-- Python dict `d.get(k, default)` over the association list. -/
def dictGet (l : List (String × Int)) (k : String) (default : Int) : Int :=
  match l.find? (fun p => p.1 == k) with
  | some p => p.2
  | none => default

/-- Python dict assignment `d[k] = v`: update in place if the key exists
(preserving insertion order), otherwise append. -/
def dictSet : List (String × Int) → String → Int → List (String × Int)
  | [], k, v => [(k, v)]
  | (k', v') :: t, k, v =>
    if k' == k then (k, v) :: t else (k', v') :: dictSet t k v

/-! ## beta 1.0 (`src/jsxeaflist-beta1.0.py`) -/

namespace V10

/-- `self.cxba_bits = 2`: the fixed pad width. -/
def cxba_bits : Nat := 2

/-- `_pad_address`: for an address starting with (upper-case) `P`, keep the
digit and `'X'` characters of the whole token in order and `zfill` them to
their own length plus `cxba_bits`; every other token passes through
unchanged. -/
def pad_address (addr : String) : String :=
  if pyStartsWith "P" addr then
    let num_part := String.mk (addr.data.filter (fun c => c.isDigit || c == 'X'))
    "P" ++ pyZfill num_part (num_part.data.length + cxba_bits)
  else addr

/-- `_resolve_dynamic_addr`: an address containing `'X'` expands to the ten
padded addresses obtained by `str.replace`-ing `'X'` with each digit `0`–`9`;
otherwise the single padded address. -/
def resolve_dynamic_addr (addr : String) : List String :=
  if addr.data.contains 'X' then
    (List.range 10).map
      (fun i => pad_address (pyReplace addr "X" (String.mk [Nat.digitChar i])))
  else [pad_address addr]

/-- `_parse_operation`: strip `(`, `)` and `-`, then fold over the remaining
characters: `'m'` contributes `-1`, `'v'` contributes `+1`, anything else
`0`.  (beta 1.0 tests the lower-case letters only.) -/
def parse_operation (op_str : String) : Int :=
  let clean_op := pyReplace (pyReplace (pyReplace op_str "(" "") ")" "") "-" ""
  clean_op.data.foldl
    (fun acc c => if c = 'm' then acc - 1 else if c = 'v' then acc + 1 else acc) 0

/-- `_get_target_value`: `P` addresses read the memory map (default 0);
`C:`/`D:` addresses read the `value` field of the per-volume config file if
it exists (a missing directory or file reads 0); anything else raises
`ValueError` (unsupported address type). -/
def get_target_value (target : String) : EM Int := do
  let s ← EM.get
  if pyStartsWith "P" target then
    pure (dictGet s.editor_memory (pad_address target) 0)
  else if pyStartsWith "C:" target || pyStartsWith "D:" target then
    let fname := pyReplace target ":" "_" ++ ".json"
    if pyStartsWith "C:" target then
      pure (if s.dirC then dictGet s.filesC fname 0 else 0)
    else
      pure (if s.dirD then dictGet s.filesD fname 0 else 0)
  else EM.throw Err.valueError

/-- `_set_target_value`: read the current value first (this is where an
unsupported address raises), then overwrite (`is_update = false`) or
accumulate (`is_update = true`).  A disk write opens the config file for
writing, which raises `FileNotFoundError` when the per-volume directory does
not exist. -/
def set_target_value (target : String) (value : Int) (is_update : Bool) :
    EM Unit := do
  let target_padded := pad_address target
  let current_val ← get_target_value target
  let final_val := if is_update then current_val + value else value
  if pyStartsWith "P" target then
    EM.modifyS (fun s =>
      { s with editor_memory := dictSet s.editor_memory target_padded final_val })
  else if pyStartsWith "C:" target || pyStartsWith "D:" target then
    let fname := pyReplace target ":" "_" ++ ".json"
    if pyStartsWith "C:" target then do
      let s ← EM.get
      if s.dirC then
        EM.modifyS (fun st => { st with filesC := dictSet st.filesC fname final_val })
      else EM.throw Err.fileNotFound
    else do
      let s ← EM.get
      if s.dirD then
        EM.modifyS (fun st => { st with filesD := dictSet st.filesD fname final_val })
      else EM.throw Err.fileNotFound
  else pure ()

/-- `_init_disk`: `os.makedirs` for each missing per-volume directory. -/
def init_disk : EM Unit :=
  EM.modifyS (fun s => { s with dirC := true, dirD := true })

/-- One parameter of `parse_sjxeaflist`: `ADDR-C` binds the address to
`ord(C)` (a hyphen count other than one fails the 2-tuple unpacking with
`ValueError`; a multi-character `C` makes `ord` raise `TypeError`); a bare
address is initialised to 0. -/
def sjx_param (param : String) : EM Unit :=
  if param.data.contains '-' then
    match pySplit param "-" with
    | [addr_name, val_char] =>
      match val_char.data with
      | [c] => set_target_value addr_name (Int.ofNat c.toNat) false
      | _ => EM.throw Err.typeError
    | _ => EM.throw Err.valueError
  else
    set_target_value param 0 false

/-- `parse_sjxeaflist`: create the disk directories, then process each
parameter in order. -/
def parse_sjxeaflist (params : List String) : EM Unit := do
  init_disk
  params.forM sjx_param

/-- The `for i in range(0, len(loop_ops), 2)` pair loop of
`parse_loop_header`: an odd-length list hits `loop_ops[i+1]` out of range
(`IndexError`). -/
def header_pairs : List String → EM Unit
  | [] => pure ()
  | [_] => EM.throw Err.indexError
  | t :: op :: rest => do
    set_target_value t (parse_operation op) false
    header_pairs rest

/-- `parse_loop_header`: strip the marker tokens, split on `"{g "`, parse
the termination constant with `int` (raising `ValueError` on a non-numeric
remainder, `IndexError` when `"{g "` is absent), then run the
address/combinator pairs. -/
def parse_loop_header (header : String) : EM Unit := do
  let parts := pySplit
    (pyReplace (pyReplace (pyReplace header "kaj>:eaa " "") ":eas " "") ":eau " "")
    "\x7bg "
  let p0 ← EM.lift (pyGet parts 0)
  let loop_ops := pySplit p0 " "
  let p1 ← EM.lift (pyGet parts 1)
  let tc ← EM.lift (pyInt (pyReplace p1 "]:" ""))
  EM.modifyS (fun s => { s with terminate_constant := tc })
  header_pairs loop_ops

/-- One line of the loop body: the `u -a` update-arithmetic form, the `s`
set form (with dynamic-address fan-out), the `u CN` marker-increment form;
anything else is ignored.  The trailing `print` calls of the source re-read
values already proved readable and are pure, so they are not modelled. -/
def exec_body_line (line0 : String) : EM Unit := do
  let line := pyStrip line0
  if line.data.isEmpty then pure ()
  else if pyStartsWith "u -a" line then do
    let t1 ← EM.lift (pyGet (pySplit line "s ") 1)
    let target ← EM.lift (pyGet (pySplit t1 ":") 0)
    let o1 ← EM.lift (pyGet (pySplit line "cxba ") 1)
    let o2 ← EM.lift (pyGet (pySplit o1 "|") 0)
    let offset ← EM.lift (pyInt o2)
    set_target_value target offset true
  else if pyStartsWith "s " line then do
    let parts := pySplitMax line " " 2
    let target ← EM.lift (pyGet parts 1)
    let p2 ← EM.lift (pyGet parts 2)
    let net_op := parse_operation (pyRstrip p2 ']')
    (resolve_dynamic_addr target).forM (fun addr => set_target_value addr net_op false)
  else if pyStartsWith "u CN" line then do
    let target ← EM.lift (pyGet (pySplit line "u ") 1)
    let current_val ← get_target_value target
    set_target_value target (current_val + 1) false
  else pure ()

/-- One full pass over the buffered body block, in source order. -/
def exec_body (body : List String) : EM Unit := body.forM exec_body_line

/-- The `while self.loop_running` loop of `parse_loop_body`, with explicit
fuel modelling non-termination (`Err.outOfFuel` when the fuel runs out with
the loop still running).  Returns `loop_count`, the number of completed
passes.  After each pass the counter cell `P2M81` is read and compared with
`>=` against the termination constant. -/
def loop_go (body : List String) : Nat → Nat → EM Nat
  | 0, count => do
    let s ← EM.get
    if s.loop_running then EM.throw Err.outOfFuel else pure count
  | fuel + 1, count => do
    let s ← EM.get
    if s.loop_running then do
      exec_body body
      let v ← get_target_value "P2M81"
      let s' ← EM.get
      if v ≥ s'.terminate_constant then
        EM.modifyS (fun st => { st with loop_running := false })
      else pure ()
      loop_go body fuel (count + 1)
    else pure count

/-- `parse_loop_body`: run the while loop from `loop_count = 0`. -/
def parse_loop_body (fuel : Nat) (body : List String) : EM Nat :=
  loop_go body fuel 0

/-- The ordinary (non-loop) `s ADDR EXPR]` directive of `run_program`. -/
def ordinary_set (line : String) : EM Unit := do
  let parts := pySplitMax line " " 2
  let target ← EM.lift (pyGet parts 1)
  let p2 ← EM.lift (pyGet parts 2)
  set_target_value target (parse_operation (pyRstrip p2 ']')) false

/-- Dispatch of one program line in `run_program`, threading the
`in_loop_body` flag and the body buffer (the `in_loop` variable of the
source is assigned but never read, so it carries no state).  Branch order is
the source's: setup, loop header, body-open, body-close, body collection,
ordinary set, silent skip. -/
def run_line (fuel : Nat) (line0 : String) (in_body : Bool) (buf : List String) :
    EM (Bool × List String) := do
  let line := pyStrip line0
  if line.data.isEmpty then pure (in_body, buf)
  else if pyStartsWith "sjxeaflist" line then do
    parse_sjxeaflist (List.drop 1 (pySplit line " "))
    pure (in_body, buf)
  else if pyStartsWith "kaj" line then do
    parse_loop_header line
    pure (in_body, buf)
  else if line = ":cod -|" then pure (true, buf)
  else if line = "|-]" then
    if in_body then do
      EM.modifyS (fun st => { st with loop_running := true })
      let _ ← parse_loop_body fuel buf
      pure (false, [])
    else pure (in_body, buf)
  else if in_body then pure (in_body, buf ++ [line])
  else if pyStartsWith "s " line then do
    ordinary_set line
    pure (in_body, buf)
  else pure (in_body, buf)

/-- The `for line in program` loop of `run_program`. -/
def run_lines (fuel : Nat) : List String → Bool → List String → EM Unit
  | [], _, _ => pure ()
  | l :: rest, in_body, buf => do
    let p ← run_line fuel l in_body buf
    run_lines fuel rest p.1 p.2

/-- `shutdown`: clear the editor memory, then for each per-volume directory
in insertion order (`C:` then `D:`) list it (`FileNotFoundError` when the
directory does not exist — the source never checks), remove every file and
remove the directory. -/
def shutdown : EM Unit := do
  EM.modifyS (fun s => { s with editor_memory := [] })
  let s ← EM.get
  if s.dirC then
    EM.modifyS (fun st => { st with filesC := [], dirC := false })
  else EM.throw Err.fileNotFound
  let s2 ← EM.get
  if s2.dirD then
    EM.modifyS (fun st => { st with filesD := [], dirD := false })
  else EM.throw Err.fileNotFound

/-- `run_program` of beta 1.0: process every line, then shut down.  There is
no exception handler, so any raised error skips `shutdown` and propagates to
the caller with the state as mutated so far. -/
def run_program (fuel : Nat) (program : List String) : EM Unit := do
  run_lines fuel program false []
  shutdown

end V10

/-! ## beta 1.1 (`src/jsxeaflsit-beta1.1.py`) -/

namespace V11

/-- `self.cxba_bits = 2`: the fixed pad width. -/
def cxba_bits : Nat := 2

/-- `_pad_address` of beta 1.1: the `P` test is done on the upper-cased
token, but the digit/`'X'` characters are collected from the token as
given. -/
def pad_address (addr : String) : String :=
  if pyStartsWith "P" (pyUpper addr) then
    let num_part := String.mk (addr.data.filter (fun c => c.isDigit || c == 'X'))
    "P" ++ pyZfill num_part (num_part.data.length + cxba_bits)
  else addr

/-- `_resolve_dynamic_addr` of beta 1.1: the token is upper-cased before the
padding / digit substitution, but the wildcard test `"X" not in addr` looks
at the token as given. -/
def resolve_dynamic_addr (addr : String) : List String :=
  if addr.data.contains 'X' then
    (List.range 10).map
      (fun i => pad_address (pyReplace (pyUpper addr) "X" (String.mk [Nat.digitChar i])))
  else [pad_address (pyUpper addr)]

/-- `_parse_operation` of beta 1.1: strip `(`, `)` and `-`, upper-case the
remainder, then fold: `'M'` contributes `-1`, `'V'` contributes `+1`,
anything else `0`. -/
def parse_operation (op_str : String) : Int :=
  let clean_op := pyUpper (pyReplace (pyReplace (pyReplace op_str "(" "") ")" "") "-" "")
  clean_op.data.foldl
    (fun acc c => if c = 'M' then acc - 1 else if c = 'V' then acc + 1 else acc) 0

/-- `_get_target_value` of beta 1.1: the target is upper-cased first,
otherwise as in beta 1.0. -/
def get_target_value (target0 : String) : EM Int := do
  let target := pyUpper target0
  let s ← EM.get
  if pyStartsWith "P" target then
    pure (dictGet s.editor_memory (pad_address target) 0)
  else if pyStartsWith "C:" target || pyStartsWith "D:" target then
    let fname := pyReplace target ":" "_" ++ ".json"
    if pyStartsWith "C:" target then
      pure (if s.dirC then dictGet s.filesC fname 0 else 0)
    else
      pure (if s.dirD then dictGet s.filesD fname 0 else 0)
  else EM.throw Err.valueError

/-- `_set_target_value` of beta 1.1: the target is upper-cased first and the
write branches on the padded target. -/
def set_target_value (target0 : String) (value : Int) (is_update : Bool) :
    EM Unit := do
  let target := pyUpper target0
  let target_padded := pad_address target
  let current_val ← get_target_value target
  let final_val := if is_update then current_val + value else value
  if pyStartsWith "P" target_padded then
    EM.modifyS (fun s =>
      { s with editor_memory := dictSet s.editor_memory target_padded final_val })
  else if pyStartsWith "C:" target_padded || pyStartsWith "D:" target_padded then
    let fname := pyReplace target_padded ":" "_" ++ ".json"
    if pyStartsWith "C:" target_padded then do
      let s ← EM.get
      if s.dirC then
        EM.modifyS (fun st => { st with filesC := dictSet st.filesC fname final_val })
      else EM.throw Err.fileNotFound
    else do
      let s ← EM.get
      if s.dirD then
        EM.modifyS (fun st => { st with filesD := dictSet st.filesD fname final_val })
      else EM.throw Err.fileNotFound
  else pure ()

/-- `_init_disk`: identical to beta 1.0. -/
def init_disk : EM Unit :=
  EM.modifyS (fun s => { s with dirC := true, dirD := true })

/-- One parameter of `parse_sjxeaflist` in beta 1.1: the bound value is
`ord(val_char.upper())`, i.e. the code point of the UPPER-CASED character
(`ord('g'.upper()) = ord('G') = 71`, not 103). -/
def sjx_param (param : String) : EM Unit :=
  if param.data.contains '-' then
    match pySplit param "-" with
    | [addr_name, val_char] =>
      match val_char.data with
      | [c] => set_target_value addr_name (Int.ofNat c.toUpper.toNat) false
      | _ => EM.throw Err.typeError
    | _ => EM.throw Err.valueError
  else
    set_target_value param 0 false

/-- `parse_sjxeaflist` of beta 1.1. -/
def parse_sjxeaflist (params : List String) : EM Unit := do
  init_disk
  params.forM sjx_param

/-- The pair loop of `parse_loop_header` (as in beta 1.0). -/
def header_pairs : List String → EM Unit
  | [] => pure ()
  | [_] => EM.throw Err.indexError
  | t :: op :: rest => do
    set_target_value t (parse_operation op) false
    header_pairs rest

/-- `parse_loop_header` of beta 1.1: the marker tokens are the upper-case
literals `"KAJ>:EAA "`, `":EAS "`, `":EAU "`, `"{G "`, applied to the line
as given (the dispatcher does not upper-case it). -/
def parse_loop_header (header : String) : EM Unit := do
  let parts := pySplit
    (pyReplace (pyReplace (pyReplace header "KAJ>:EAA " "") ":EAS " "") ":EAU " "")
    "\x7bG "
  let p0 ← EM.lift (pyGet parts 0)
  let loop_ops := pySplit p0 " "
  let p1 ← EM.lift (pyGet parts 1)
  let tc ← EM.lift (pyInt (pyReplace p1 "]:" ""))
  EM.modifyS (fun s => { s with terminate_constant := tc })
  header_pairs loop_ops

/-- One line of the loop body in beta 1.1: the line is stripped AND
upper-cased, and the directive shapes are the upper-case ones
(`U -A`, `S `, `U CN`). -/
def exec_body_line (line0 : String) : EM Unit := do
  let line := pyUpper (pyStrip line0)
  if line.data.isEmpty then pure ()
  else if pyStartsWith "U -A" line then do
    let t1 ← EM.lift (pyGet (pySplit line "S ") 1)
    let target ← EM.lift (pyGet (pySplit t1 ":") 0)
    let o1 ← EM.lift (pyGet (pySplit line "CXBA ") 1)
    let o2 ← EM.lift (pyGet (pySplit o1 "|") 0)
    let offset ← EM.lift (pyInt o2)
    set_target_value target offset true
  else if pyStartsWith "S " line then do
    let parts := pySplitMax line " " 2
    let target ← EM.lift (pyGet parts 1)
    let p2 ← EM.lift (pyGet parts 2)
    let net_op := parse_operation (pyRstrip p2 ']')
    (resolve_dynamic_addr target).forM (fun addr => set_target_value addr net_op false)
  else if pyStartsWith "U CN" line then do
    let target ← EM.lift (pyGet (pySplit line "U ") 1)
    let current_val ← get_target_value target
    set_target_value target (current_val + 1) false
  else pure ()

/-- One full pass over the buffered body block. -/
def exec_body (body : List String) : EM Unit := body.forM exec_body_line

/-- The fueled `while self.loop_running` loop of beta 1.1, reading the
counter cell `P2M81` after each pass and stopping on `>=`. -/
def loop_go (body : List String) : Nat → Nat → EM Nat
  | 0, count => do
    let s ← EM.get
    if s.loop_running then EM.throw Err.outOfFuel else pure count
  | fuel + 1, count => do
    let s ← EM.get
    if s.loop_running then do
      exec_body body
      let v ← get_target_value "P2M81"
      let s' ← EM.get
      if v ≥ s'.terminate_constant then
        EM.modifyS (fun st => { st with loop_running := false })
      else pure ()
      loop_go body fuel (count + 1)
    else pure count

/-- `parse_loop_body` of beta 1.1. -/
def parse_loop_body (fuel : Nat) (body : List String) : EM Nat :=
  loop_go body fuel 0

/-- The ordinary `S ADDR EXPR]` directive of beta 1.1's `run_program`. -/
def ordinary_set (line : String) : EM Unit := do
  let parts := pySplitMax line " " 2
  let target ← EM.lift (pyGet parts 1)
  let p2 ← EM.lift (pyGet parts 2)
  set_target_value target (parse_operation (pyRstrip p2 ']')) false

/-- Dispatch of one program line in beta 1.1's `run_program`.  The line is
stripped but NOT upper-cased, while every directive shape is an upper-case
literal — and the setup shape is `"SJXEAF LIST"` with an interior space, so
the `sjxeaflist` keyword of the language can never match it. -/
def run_line (fuel : Nat) (line0 : String) (in_body : Bool) (buf : List String) :
    EM (Bool × List String) := do
  let line := pyStrip line0
  if line.data.isEmpty then pure (in_body, buf)
  else if pyStartsWith "SJXEAF LIST" line then do
    parse_sjxeaflist (List.drop 1 (pySplit line " "))
    pure (in_body, buf)
  else if pyStartsWith "KAJ" line then do
    parse_loop_header line
    pure (in_body, buf)
  else if line = ":COD -|" then pure (true, buf)
  else if line = "|-]" then
    if in_body then do
      EM.modifyS (fun st => { st with loop_running := true })
      let _ ← parse_loop_body fuel buf
      pure (false, [])
    else pure (in_body, buf)
  else if in_body then pure (in_body, buf ++ [line])
  else if pyStartsWith "S " line then do
    ordinary_set line
    pure (in_body, buf)
  else pure (in_body, buf)

/-- The `for line in program` loop of beta 1.1's `run_program`. -/
def run_lines (fuel : Nat) : List String → Bool → List String → EM Unit
  | [], _, _ => pure ()
  | l :: rest, in_body, buf => do
    let p ← run_line fuel l in_body buf
    run_lines fuel rest p.1 p.2

/-- `shutdown`: identical to beta 1.0 (unconditional `os.listdir` on both
per-volume directories). -/
def shutdown : EM Unit := do
  EM.modifyS (fun s => { s with editor_memory := [] })
  let s ← EM.get
  if s.dirC then
    EM.modifyS (fun st => { st with filesC := [], dirC := false })
  else EM.throw Err.fileNotFound
  let s2 ← EM.get
  if s2.dirD then
    EM.modifyS (fun st => { st with filesD := [], dirD := false })
  else EM.throw Err.fileNotFound

/-- `run_program` of beta 1.1: the line loop sits in a
`try ... except ValueError`, whose handler logs the error, runs `shutdown`
and returns; on normal completion `shutdown` runs after the loop.  A
`ValueError` is therefore swallowed, while any other exception (and any
exception raised by `shutdown` itself) propagates. -/
def run_program (fuel : Nat) (program : List String) : EM Unit := fun s =>
  match run_lines fuel program false [] s with
  | (Except.ok _, s') => shutdown s'
  | (Except.error Err.valueError, s') => shutdown s'
  | (Except.error e, s') => (Except.error e, s')

end V11

/-! ## Basic lemmas about the embedding -/

theorem EM.bind_apply {α β : Type} (x : EM α) (f : α → EM β) (s : EditorState) :
    (x >>= f) s =
      match x s with
      | (Except.ok a, s') => f a s'
      | (Except.error e, s') => (Except.error e, s') := rfl

theorem EM.pure_apply {α : Type} (a : α) (s : EditorState) :
    (pure a : EM α) s = (Except.ok a, s) := rfl

theorem EM.get_apply (s : EditorState) : EM.get s = (Except.ok s, s) := rfl

theorem EM.modifyS_apply (f : EditorState → EditorState) (s : EditorState) :
    EM.modifyS f s = (Except.ok (), f s) := rfl

theorem EM.throw_apply {α : Type} (e : Err) (s : EditorState) :
    (EM.throw e : EM α) s = (Except.error e, s) := rfl

theorem EM.lift_apply {α : Type} (x : Except Err α) (s : EditorState) :
    EM.lift x s = (x, s) := rfl

/-- Reading a key just written returns the written value. -/
theorem dictGet_dictSet_self (l : List (String × Int)) (k : String) (v d : Int) :
    dictGet (dictSet l k v) k d = v := by
  induction l with
  | nil => simp [dictSet, dictGet]
  | cons p t ih =>
    by_cases h : p.1 = k
    · simp [dictSet, dictGet, h]
    · simpa [dictSet, dictGet, h] using ih

/-- Writing one key leaves every other key unchanged. -/
theorem dictGet_dictSet_ne (l : List (String × Int)) (k k' : String) (v d : Int)
    (h : k ≠ k') : dictGet (dictSet l k v) k' d = dictGet l k' d := by
  induction l with
  | nil => simp [dictSet, dictGet, h]
  | cons p t ih =>
    by_cases hp : p.1 = k
    · simp [dictSet, dictGet, hp, h]
    · by_cases hp' : p.1 = k'
      · simp [dictSet, dictGet, hp, hp', Ne.symm h]
      · simpa [dictSet, dictGet, hp, hp'] using ih

/-- `str.replace` with a one-character pattern and a one-character
replacement substitutes the same character simultaneously at every
occurrence: it is the character-wise map. -/
theorem pyReplaceGo_char (c d : Char) :
    ∀ (fuel : Nat) (l : List Char), l.length ≤ fuel →
      pyReplaceGo [c] [d] fuel l = l.map (fun a => if a = c then d else a) := by
  intro fuel
  induction fuel with
  | zero =>
    intro l hl
    have hnil : l = [] := List.eq_nil_of_length_eq_zero (Nat.le_zero.mp hl)
    subst hnil
    rfl
  | succ n ih =>
    intro l hl
    match l with
    | [] => rfl
    | a :: as =>
      have hlen : as.length ≤ n := by
        have := hl
        simp only [List.length_cons] at this
        omega
      by_cases h : c = a
      · have hb : ([c].isPrefixOf (a :: as)) = true := by
          simp [List.isPrefixOf, h]
        simp only [pyReplaceGo, hb, if_true, List.length_cons,
          List.length_nil, List.drop_succ_cons, List.drop_zero, List.map]
        rw [ih as hlen]
        have ha : a = c := h.symm
        simp [ha]
      · have hb : ([c].isPrefixOf (a :: as)) = false := by
          simp [List.isPrefixOf, h]
        simp only [pyReplaceGo, hb, if_false, Bool.false_eq_true, List.map]
        rw [ih as hlen]
        have ha : ¬ (a = c) := fun hac => h hac.symm
        simp [ha]

/-- `pyReplace` with one-character pattern and replacement, as a map on the
character list. -/
theorem pyReplace_char (s : String) (c d : Char) :
    pyReplace s (String.mk [c]) (String.mk [d]) =
      String.mk (s.data.map (fun a => if a = c then d else a)) := by
  unfold pyReplace
  exact congrArg String.mk (pyReplaceGo_char c d (s.data.length + 1) s.data
    (Nat.le_succ _))

/-! ## Claim theorems -/

/-- C1 (counterexample): canonicalization is NOT idempotent.  Each
application of `_pad_address` grows the digit run by two more leading
zeros: `P1 ↦ P001 ↦ P00001` in both versions, and the already-canonical
Memory address `P00300` (the canonical form of `P300`) maps to `P0000300`,
not to itself. -/
theorem C1_counterexample :
    V10.pad_address (V10.pad_address "P1") ≠ V10.pad_address "P1" ∧
    V11.pad_address (V11.pad_address "P1") ≠ V11.pad_address "P1" ∧
    V10.pad_address "P300" = "P00300" ∧
    V10.pad_address "P00300" = "P0000300" := by
  refine ⟨by decide, by decide, rfl, rfl⟩

/-- C2 (evaluation at the failing input): executing the setup line
`sjxeaflist P2MS0o-g` in beta 1.0 stores 103 (= `ord 'g'`) under `P0020`,
the canonical key of `P2MS0O`, exactly as the claim states; but beta 1.1's
`run_program` dispatches setup lines on the misspelled prefix
`"SJXEAF LIST"`, so the same line is silently skipped (state unchanged),
and even its `parse_sjxeaflist` handler, invoked directly, stores
`ord('G') = 71` instead of 103. -/
theorem C2_code_eval :
    (V10.run_lines 9 ["sjxeaflist P2MS0o-g"] false [] (initState false)).1
      = Except.ok () ∧
    (V10.run_lines 9 ["sjxeaflist P2MS0o-g"] false [] (initState false)).2.editor_memory
      = [("P0020", 103)] ∧
    V10.pad_address "P2MS0O" = "P0020" ∧
    (V11.run_lines 9 ["sjxeaflist P2MS0o-g"] false [] (initState false)).1
      = Except.ok () ∧
    (V11.run_lines 9 ["sjxeaflist P2MS0o-g"] false [] (initState false)).2
      = initState false ∧
    (V11.parse_sjxeaflist ["P2MS0o-g"] (initState false)).2.editor_memory
      = [("P0020", 71)] := by
  refine ⟨rfl, rfl, rfl, rfl, rfl, rfl⟩

/-- C3 (counterexample): the combined claim "execution stops, shutdown
still runs, and the error is surfaced" fails in both versions.  In beta 1.0
the `UnsupportedAddress` `ValueError` is surfaced but `shutdown` never runs:
the volatile cell `P005` is still present afterwards (and the third line was
skipped).  In beta 1.1 `shutdown` runs but the error is swallowed:
`run_program` returns normally. -/
theorem C3_counterexample :
    (V10.run_program 9 ["s P5 pov", "s Q5 pov", "s P6 pov"] (initState true)).1
      = Except.error Err.valueError ∧
    (V10.run_program 9 ["s P5 pov", "s Q5 pov", "s P6 pov"] (initState true)).2.editor_memory
      = [("P005", 1)] ∧
    (V11.run_program 9 ["S P5 POV", "S Q5 POV"] (initState true)).1
      = Except.ok () ∧
    (V11.run_program 9 ["S P5 POV", "S Q5 POV"] (initState true)).2.editor_memory
      = [] := by
  refine ⟨rfl, rfl, rfl, rfl⟩

/-- C5 (evaluation at the failing input): beta 1.0's `_parse_operation`
never upper-cases, so it is case-SENSITIVE: `"POV"` evaluates to 0 where
the claim requires +1 (beta 1.1, which does upper-case, gives +1 and
satisfies every value of the claim).  beta 1.0 even raises
`UnsupportedAddress` on the line `s p0314 pov` bundled in its own example
program next to a comment promising case-insensitive handling. -/
theorem C5_code_eval :
    V10.parse_operation "POV" = 0 ∧
    V10.parse_operation "pov" = 1 ∧
    V10.parse_operation "pom-pom(pov(pov(pom" = -1 ∧
    V10.parse_operation "" = 0 ∧
    V11.parse_operation "POV" = 1 ∧
    V11.parse_operation "pov" = 1 ∧
    V11.parse_operation "pom-pom(pov(pov(pom" = -1 ∧
    V11.parse_operation "" = 0 ∧
    (V10.run_lines 9 ["s p0314 pov"] false [] (initState false)).1
      = Except.error Err.valueError := by
  refine ⟨by decide, by decide, by decide, rfl, by decide, by decide, by decide,
    rfl, rfl⟩

/-- C6 (counterexample): running `["s P0300 pov"]` does NOT leave a cell
keyed `P00300`: the digit run `0300` grows by the pad width 2 to `000300`,
so reading `P00300` from the pre-shutdown memory yields 0 and the memory is
not `[(P00300, 1)]`. -/
theorem C6_counterexample :
    dictGet (V10.run_lines 9 ["s P0300 pov"] false [] (initState false)).2.editor_memory
      "P00300" 0 = 0 ∧
    (V10.run_lines 9 ["s P0300 pov"] false [] (initState false)).2.editor_memory
      ≠ [("P00300", 1)] := by
  refine ⟨rfl, by decide⟩

/-- C6 (amended): running `["s P0300 pov"]` leaves exactly the Memory cell
with canonical key `P000300` (digit run `0300` grown by pad width 2) at
value +1 immediately before shutdown; shutdown then clears the memory, so
the cell is absent (reads 0) afterwards — `run_program` returns normally
when the disk directories pre-exist, and raises `FileNotFoundError` (with
the memory equally cleared) when they do not. -/
theorem C6_amended :
    (V10.run_lines 9 ["s P0300 pov"] false [] (initState false)).1
      = Except.ok () ∧
    (V10.run_lines 9 ["s P0300 pov"] false [] (initState false)).2.editor_memory
      = [("P000300", 1)] ∧
    V10.pad_address "P0300" = "P000300" ∧
    (V10.run_program 9 ["s P0300 pov"] (initState true)).1 = Except.ok () ∧
    (V10.run_program 9 ["s P0300 pov"] (initState true)).2.editor_memory = [] ∧
    dictGet (V10.run_program 9 ["s P0300 pov"] (initState true)).2.editor_memory
      "P000300" 0 = 0 ∧
    (V10.run_program 9 ["s P0300 pov"] (initState false)).1
      = Except.error Err.fileNotFound ∧
    (V10.run_program 9 ["s P0300 pov"] (initState false)).2.editor_memory = [] := by
  refine ⟨rfl, rfl, rfl, rfl, rfl, rfl, rfl, rfl⟩

theorem mkData (l : List Char) : (String.mk l).data = l := rfl

/-- `zfill` to `length + 2` prepends exactly two zeros. -/
theorem pyZfill_add_two (l : List Char) :
    pyZfill (String.mk l) (l.length + 2) = String.mk ('0' :: '0' :: l) := by
  show (if l.length + 2 ≤ l.length then String.mk l
    else String.mk (List.replicate (l.length + 2 - l.length) '0' ++ l)) = _
  rw [if_neg (by omega), Nat.add_sub_cancel_left]
  rfl

/-- Structure of `_pad_address` (beta 1.0) on a `P`-prefixed token: the
canonical key is `P`, two padding zeros, then exactly the digit/`'X'`
characters of the token in their original order — everything else is
discarded. -/
theorem V10_pad_eq (addr : String) (h : pyStartsWith "P" addr = true) :
    V10.pad_address addr = String.mk ('P' :: '0' :: '0' ::
      addr.data.filter (fun c => c.isDigit || c == 'X')) := by
  unfold V10.pad_address
  rw [h]
  simp only [if_true, V10.cxba_bits, mkData]
  rw [pyZfill_add_two]
  rfl

/-- A key produced by the padding always starts with `P` again. -/
theorem pyStartsWith_P_cons (l : List Char) :
    pyStartsWith "P" (String.mk ('P' :: l)) = true := by
  simp [pyStartsWith, List.isPrefixOf]

/-- Re-filtering a padded key keeps the zeros and the already-filtered
run. -/
theorem pad_filter_twice (l : List Char) :
    (('P' :: '0' :: '0' :: l.filter (fun c => c.isDigit || c == 'X')).filter
        (fun c => c.isDigit || c == 'X'))
      = '0' :: '0' :: l.filter (fun c => c.isDigit || c == 'X') := by
  have hP : (('P'.isDigit || ('P' == 'X'))) = false := by decide
  have h0 : (('0'.isDigit || ('0' == 'X'))) = true := by decide
  simp only [List.filter_cons, hP, h0, if_true, Bool.false_eq_true, if_false]
  rw [List.filter_filter]
  simp

/-- Padding a padded `P`-key again: the digit run gains two more zeros. -/
theorem V10_pad_pad (addr : String) (h : pyStartsWith "P" addr = true) :
    V10.pad_address (V10.pad_address addr)
      = String.mk ('P' :: '0' :: '0' :: '0' :: '0' ::
          addr.data.filter (fun c => c.isDigit || c == 'X')) := by
  rw [V10_pad_eq addr h, V10_pad_eq _ (pyStartsWith_P_cons _)]
  rw [mkData, pad_filter_twice]

/-- C1 (amended): canonicalization is idempotent exactly on the tokens NOT
starting with `P` (which pass through unchanged); on a `P`-prefixed token
every application of `_pad_address` grows the key by exactly the pad width
2, so re-canonicalizing a canonical Memory address never returns it
unchanged. -/
theorem C1_amended_pad_growth :
    (∀ addr : String,
      (V10.pad_address (V10.pad_address addr) = V10.pad_address addr
        ↔ pyStartsWith "P" addr = false)) ∧
    (∀ addr : String, pyStartsWith "P" addr = true →
      (V10.pad_address (V10.pad_address addr)).data.length
        = (V10.pad_address addr).data.length + 2) := by
  have hlen : ∀ addr : String, pyStartsWith "P" addr = true →
      (V10.pad_address (V10.pad_address addr)).data.length
        = (V10.pad_address addr).data.length + 2 := by
    intro addr h
    rw [V10_pad_pad addr h, V10_pad_eq addr h, mkData, mkData]
    simp only [List.length_cons]
  refine ⟨fun addr => ?_, hlen⟩
  cases hx : pyStartsWith "P" addr with
  | true =>
    simp only [Bool.true_eq_false, iff_false]
    intro heq
    have := hlen addr hx
    rw [heq] at this
    omega
  | false =>
    simp only [iff_true]
    have hpa : V10.pad_address addr = addr := by
      unfold V10.pad_address
      rw [hx]
      simp
    rw [hpa, hpa]

/-- C1 (witness for the amended claim): `P1` is a `P`-token whose double
padding is two characters longer than its single padding, and the non-`P`
token `C:FOO` is a fixed point of double padding. -/
theorem C1_amended_witness :
    pyStartsWith "P" "P1" = true ∧
    (V10.pad_address (V10.pad_address "P1")).data.length
      = (V10.pad_address "P1").data.length + 2 ∧
    (V10.pad_address (V10.pad_address "C:FOO") = V10.pad_address "C:FOO"
      ↔ pyStartsWith "P" "C:FOO" = false) :=
  ⟨by decide, C1_amended_pad_growth.2 "P1" (by decide),
    C1_amended_pad_growth.1 "C:FOO"⟩

/-- C8: canonicalization of a `P`-prefixed address keeps only its digit and
`'X'` characters in order (after the leading `P` and the two padding
zeros), so any two raw `P`-addresses with the same digit/marker subsequence
share one canonical key; in particular `P2M81` and `P281` both canonicalize
to `P00281`, and reading the loop counter `P2M81` consults exactly the
memory cell keyed `P00281`. -/
theorem C8_canonical_subsequence :
    (∀ addr : String, pyStartsWith "P" addr = true →
      V10.pad_address addr = String.mk ('P' :: '0' :: '0' ::
        addr.data.filter (fun c => c.isDigit || c == 'X'))) ∧
    (∀ a b : String, pyStartsWith "P" a = true → pyStartsWith "P" b = true →
      a.data.filter (fun c => c.isDigit || c == 'X')
        = b.data.filter (fun c => c.isDigit || c == 'X') →
      V10.pad_address a = V10.pad_address b) ∧
    V10.pad_address "P2M81" = "P00281" ∧
    V10.pad_address "P281" = "P00281" ∧
    (∀ s : EditorState, V10.get_target_value "P2M81" s
      = (Except.ok (dictGet s.editor_memory "P00281" 0), s)) := by
  refine ⟨V10_pad_eq, fun a b ha hb hf => ?_, rfl, rfl, fun s => rfl⟩
  rw [V10_pad_eq a ha, V10_pad_eq b hb, hf]

/-- C8 (witness): applying the characterization to the two raw addresses of
the claim. -/
theorem C8_witness :
    pyStartsWith "P" "P2M81" = true ∧ pyStartsWith "P" "P281" = true ∧
    "P2M81".data.filter (fun c => c.isDigit || c == 'X')
      = "P281".data.filter (fun c => c.isDigit || c == 'X') ∧
    V10.pad_address "P2M81" = V10.pad_address "P281" :=
  ⟨by decide, by decide, by decide,
    C8_canonical_subsequence.2.1 "P2M81" "P281" (by decide) (by decide) (by decide)⟩

/-- `str.replace` of the wildcard marker by one digit character, as the
simultaneous character-wise substitution. -/
theorem pyReplace_X (s : String) (d : Char) :
    pyReplace s "X" (String.mk [d])
      = String.mk (s.data.map (fun a => if a = 'X' then d else a)) := by
  show String.mk (pyReplaceGo ['X'] [d] (s.data.length + 1) s.data) = _
  exact congrArg String.mk
    (pyReplaceGo_char 'X' d (s.data.length + 1) s.data (Nat.le_succ _))

/-- `_resolve_dynamic_addr` (beta 1.0) on a wildcard token: the ten padded
substitutions, digits 0–9 in order. -/
theorem V10_resolve_eq (addr : String) (h : addr.data.contains 'X' = true) :
    V10.resolve_dynamic_addr addr = (List.range 10).map (fun i =>
      V10.pad_address (String.mk (addr.data.map
        (fun c => if c = 'X' then Nat.digitChar i else c)))) := by
  unfold V10.resolve_dynamic_addr
  rw [h]
  simp only [if_true]
  exact List.map_congr_left (fun i _ => by rw [pyReplace_X])

/-- `_resolve_dynamic_addr` (beta 1.1) on a wildcard token: as in beta 1.0
but substituting into the upper-cased token. -/
theorem V11_resolve_eq (addr : String) (h : addr.data.contains 'X' = true) :
    V11.resolve_dynamic_addr addr = (List.range 10).map (fun i =>
      V11.pad_address (String.mk ((pyUpper addr).data.map
        (fun c => if c = 'X' then Nat.digitChar i else c)))) := by
  unfold V11.resolve_dynamic_addr
  rw [h]
  simp only [if_true]
  exact List.map_congr_left (fun i _ => by rw [pyReplace_X])

/-- C7: for an address token containing exactly one wildcard marker `'X'`,
dynamic-address expansion materializes exactly 10 canonical (padded)
addresses, the `i`-th obtained by substituting the digit `i` at the
marker's position, for `i` = 0 … 9 in ascending order — in both
versions (beta 1.1 upper-cases the token first). -/
theorem C7_wildcard_expansion (addr : String) (h1 : addr.data.count 'X' = 1) :
    (V10.resolve_dynamic_addr addr).length = 10 ∧
    (∀ i : Fin 10, (V10.resolve_dynamic_addr addr).get? i.val
      = some (V10.pad_address (String.mk (addr.data.map
          (fun c => if c = 'X' then Nat.digitChar i.val else c))))) ∧
    (V11.resolve_dynamic_addr addr).length = 10 ∧
    (∀ i : Fin 10, (V11.resolve_dynamic_addr addr).get? i.val
      = some (V11.pad_address (String.mk ((pyUpper addr).data.map
          (fun c => if c = 'X' then Nat.digitChar i.val else c))))) := by
  have hmem : 'X' ∈ addr.data := List.count_pos_iff.mp (by omega)
  have hc : addr.data.contains 'X' = true := List.elem_eq_true_of_mem hmem
  refine ⟨?_, fun i => ?_, ?_, fun i => ?_⟩
  · rw [V10_resolve_eq addr hc]; simp
  · rw [V10_resolve_eq addr hc, List.get?_eq_getElem?, List.getElem?_map,
      List.getElem?_range i.isLt]
    rfl
  · rw [V11_resolve_eq addr hc]; simp
  · rw [V11_resolve_eq addr hc, List.get?_eq_getElem?, List.getElem?_map,
      List.getElem?_range i.isLt]
    rfl

/-- C7 (witness): the token `P0X1` has exactly one marker and expands to 10
addresses whose 4th entry (digit 3) is the padded substitution. -/
theorem C7_witness :
    "P0X1".data.count 'X' = 1 ∧
    (V10.resolve_dynamic_addr "P0X1").length = 10 ∧
    (V10.resolve_dynamic_addr "P0X1").get? 3 = some "P00031" := by
  refine ⟨by decide, (C7_wildcard_expansion "P0X1" (by decide)).1, by decide⟩

/-- C10: for an address token containing one or more wildcard markers,
expansion still yields exactly 10 addresses (never 100), because
`str.replace` substitutes the SAME digit simultaneously at every occurrence
of `'X'`; the `i`-th element replaces every marker by the digit `i`, for
`i` = 0 … 9 in ascending order. -/
theorem C10_multi_wildcard (addr : String) (h1 : 1 ≤ addr.data.count 'X') :
    (V10.resolve_dynamic_addr addr).length = 10 ∧
    (V10.resolve_dynamic_addr addr).length ≠ 100 ∧
    (∀ i : Fin 10, (V10.resolve_dynamic_addr addr).get? i.val
      = some (V10.pad_address (String.mk (addr.data.map
          (fun c => if c = 'X' then Nat.digitChar i.val else c))))) := by
  have hmem : 'X' ∈ addr.data := List.count_pos_iff.mp (by omega)
  have hc : addr.data.contains 'X' = true := List.elem_eq_true_of_mem hmem
  have hlen : (V10.resolve_dynamic_addr addr).length = 10 := by
    rw [V10_resolve_eq addr hc]; simp
  refine ⟨hlen, by omega, fun i => ?_⟩
  rw [V10_resolve_eq addr hc, List.get?_eq_getElem?, List.getElem?_map,
    List.getElem?_range i.isLt]
  rfl

/-- C10 (witness): the token `PXX3` has two markers yet expands to 10
addresses; entry 7 substitutes the digit 7 at BOTH marker positions. -/
theorem C10_witness :
    1 ≤ "PXX3".data.count 'X' ∧
    (V10.resolve_dynamic_addr "PXX3").length = 10 ∧
    (V10.resolve_dynamic_addr "PXX3").get? 7 = some "P00773" := by
  refine ⟨by decide, (C10_multi_wildcard "PXX3" (by decide)).1, by decide⟩

/-- `shutdown` (beta 1.0) on a state whose `C:` directory is missing:
the memory is cleared, then the very first `os.listdir` raises. -/
theorem V10_shutdown_noC (s : EditorState) (h : s.dirC = false) :
    V10.shutdown s
      = (Except.error Err.fileNotFound, { s with editor_memory := [] }) := by
  show (EM.modifyS _ >>= fun _ => _) s = _
  simp only [EM.bind_apply, EM.modifyS_apply, EM.get_apply, h]
  rfl

/-- `shutdown` (beta 1.0) when only the `D:` directory is missing: the `C:`
directory is listed and removed first, then the second `os.listdir`
raises. -/
theorem V10_shutdown_noD (s : EditorState) (hc : s.dirC = true)
    (hd : s.dirD = false) :
    V10.shutdown s = (Except.error Err.fileNotFound,
      { s with editor_memory := [], filesC := [], dirC := false }) := by
  show (EM.modifyS _ >>= fun _ => _) s = _
  simp only [EM.bind_apply, EM.modifyS_apply, EM.get_apply, hc, hd]
  rfl

/-- `shutdown` (beta 1.0) when both directories exist: everything is
cleared and it returns normally. -/
theorem V10_shutdown_ok (s : EditorState) (hc : s.dirC = true)
    (hd : s.dirD = true) :
    V10.shutdown s = (Except.ok (),
      { s with editor_memory := [], filesC := [], filesD := [],
               dirC := false, dirD := false }) := by
  show (EM.modifyS _ >>= fun _ => _) s = _
  simp only [EM.bind_apply, EM.modifyS_apply, EM.get_apply, hc, hd]
  rfl

/-- `shutdown` (beta 1.1) is the same code as beta 1.0's. -/
theorem V11_shutdown_ok (s : EditorState) (hc : s.dirC = true)
    (hd : s.dirD = true) :
    V11.shutdown s = (Except.ok (),
      { s with editor_memory := [], filesC := [], filesD := [],
               dirC := false, dirD := false }) := by
  show (EM.modifyS _ >>= fun _ => _) s = _
  simp only [EM.bind_apply, EM.modifyS_apply, EM.get_apply, hc, hd]
  rfl

/-- C9: `shutdown` lists and removes the per-volume directories without any
existence check, so it raises `FileNotFoundError` whenever one of them is
missing (after the volatile memory was already cleared); consequently a run
whose line processing succeeds but never created the directories (no setup
line executed, none pre-existing) makes `run_program` end in
`FileNotFoundError` instead of returning normally. -/
theorem C9_shutdown_unconditional :
    (∀ s : EditorState, s.dirC = false →
      V10.shutdown s
        = (Except.error Err.fileNotFound, { s with editor_memory := [] })) ∧
    (∀ s : EditorState, s.dirC = true → s.dirD = false →
      V10.shutdown s = (Except.error Err.fileNotFound,
        { s with editor_memory := [], filesC := [], dirC := false })) ∧
    (∀ (fuel : Nat) (program : List String) (s0 s1 : EditorState),
      V10.run_lines fuel program false [] s0 = (Except.ok (), s1) →
      s1.dirC = false →
      V10.run_program fuel program s0
        = (Except.error Err.fileNotFound, { s1 with editor_memory := [] })) := by
  refine ⟨V10_shutdown_noC, V10_shutdown_noD,
    fun fuel program s0 s1 hrl hdir => ?_⟩
  show (V10.run_lines fuel program false [] >>= fun _ => V10.shutdown) s0 = _
  rw [EM.bind_apply, hrl]
  exact V10_shutdown_noC s1 hdir

/-- C9 (witness): the one-line program `["s P0300 pov"]`, started with no
pre-existing directories, never runs a setup line, and `run_program` raises
`FileNotFoundError`. -/
theorem C9_witness :
    V10.run_program 9 ["s P0300 pov"] (initState false)
      = (Except.error Err.fileNotFound,
        { editor_memory := [], filesC := [], filesD := [], dirC := false,
          dirD := false, loop_running := false, terminate_constant := 0 }) :=
  C9_shutdown_unconditional.2.2 9 ["s P0300 pov"] (initState false)
    { editor_memory := [("P000300", 1)], filesC := [], filesD := [],
      dirC := false, dirD := false, loop_running := false,
      terminate_constant := 0 } rfl rfl

/-- C3 (amended): when processing the lines raises, beta 1.0's
`run_program` propagates exactly that error with the state as mutated so
far — `shutdown` is skipped; a raising line aborts all remaining lines; and
beta 1.1's `run_program` swallows a `ValueError` and runs `shutdown`
instead, returning normally (memory cleared, files and directories removed)
whenever both directories existed. -/
theorem C3_amended_error_paths :
    (∀ (fuel : Nat) (program : List String) (s s' : EditorState) (e : Err),
      V10.run_lines fuel program false [] s = (Except.error e, s') →
      V10.run_program fuel program s = (Except.error e, s')) ∧
    (∀ (fuel : Nat) (line : String) (rest : List String) (in_body : Bool)
        (buf : List String) (s s' : EditorState) (e : Err),
      V10.run_line fuel line in_body buf s = (Except.error e, s') →
      V10.run_lines fuel (line :: rest) in_body buf s = (Except.error e, s')) ∧
    (∀ (fuel : Nat) (program : List String) (s s' : EditorState),
      V11.run_lines fuel program false [] s = (Except.error Err.valueError, s') →
      V11.run_program fuel program s = V11.shutdown s') ∧
    (∀ (fuel : Nat) (program : List String) (s s' : EditorState),
      V11.run_lines fuel program false [] s = (Except.error Err.valueError, s') →
      s'.dirC = true → s'.dirD = true →
      V11.run_program fuel program s = (Except.ok (),
        { s' with editor_memory := [], filesC := [], filesD := [],
                  dirC := false, dirD := false })) := by
  have h10 : ∀ (fuel : Nat) (program : List String) (s s' : EditorState) (e : Err),
      V10.run_lines fuel program false [] s = (Except.error e, s') →
      V10.run_program fuel program s = (Except.error e, s') := by
    intro fuel program s s' e h
    show (V10.run_lines fuel program false [] >>= fun _ => V10.shutdown) s = _
    rw [EM.bind_apply, h]
  have hline : ∀ (fuel : Nat) (line : String) (rest : List String)
      (in_body : Bool) (buf : List String) (s s' : EditorState) (e : Err),
      V10.run_line fuel line in_body buf s = (Except.error e, s') →
      V10.run_lines fuel (line :: rest) in_body buf s = (Except.error e, s') := by
    intro fuel line rest in_body buf s s' e h
    show (V10.run_line fuel line in_body buf >>= fun p =>
      V10.run_lines fuel rest p.1 p.2) s = _
    rw [EM.bind_apply, h]
  have h11 : ∀ (fuel : Nat) (program : List String) (s s' : EditorState),
      V11.run_lines fuel program false [] s = (Except.error Err.valueError, s') →
      V11.run_program fuel program s = V11.shutdown s' := by
    intro fuel program s s' h
    unfold V11.run_program
    rw [h]
  refine ⟨h10, hline, h11, fun fuel program s s' h hc hd => ?_⟩
  rw [h11 fuel program s s' h]
  exact V11_shutdown_ok s' hc hd

/-- C3 (witness for the amended claim): concrete one-line programs whose
only directive writes to the unsupported address `Q5`. -/
theorem C3_amended_witness :
    V10.run_program 9 ["s Q5 pov"] (initState true)
      = (Except.error Err.valueError, initState true) ∧
    V10.run_lines 9 ["s Q5 pov", "s P6 pov"] false [] (initState true)
      = (Except.error Err.valueError, initState true) ∧
    V11.run_program 9 ["S Q5 POV"] (initState true)
      = (Except.ok (),
        { initState true with editor_memory := [], filesC := [],
                              filesD := [], dirC := false, dirD := false }) :=
  ⟨C3_amended_error_paths.1 9 ["s Q5 pov"] (initState true) (initState true)
      Err.valueError rfl,
    C3_amended_error_paths.2.1 9 "s Q5 pov" ["s P6 pov"] false []
      (initState true) (initState true) Err.valueError rfl,
    C3_amended_error_paths.2.2.2 9 ["S Q5 POV"] (initState true)
      (initState true) rfl rfl rfl⟩

/-- The loop exits immediately (returning the pass count so far) once
`loop_running` is false, whatever fuel remains. -/
theorem V10_loop_go_stop (body : List String) (fuel count : Nat)
    (s : EditorState) (h : s.loop_running = false) :
    V10.loop_go body fuel count s = (Except.ok count, s) := by
  cases fuel with
  | zero =>
    simp only [V10.loop_go, EM.bind_apply, EM.get_apply, h, Bool.false_eq_true,
      if_false]
    rfl
  | succ n =>
    simp only [V10.loop_go, EM.bind_apply, EM.get_apply, h, Bool.false_eq_true,
      if_false]
    rfl

/-- One pass of the running loop: execute the body, read the counter cell
`P00281`, and either clear `loop_running` (when the counter reached or
exceeded the termination constant) or continue unchanged. -/
theorem V10_loop_go_step (body : List String) (fuel count : Nat)
    (s s1 : EditorState) (hrun : s.loop_running = true)
    (hexec : V10.exec_body body s = (Except.ok (), s1)) :
    V10.loop_go body (fuel + 1) count s =
      if dictGet s1.editor_memory "P00281" 0 ≥ s1.terminate_constant then
        V10.loop_go body fuel (count + 1) { s1 with loop_running := false }
      else
        V10.loop_go body fuel (count + 1) s1 := by
  have hg : V10.get_target_value "P2M81" s1
      = (Except.ok (dictGet s1.editor_memory "P00281" 0), s1) := rfl
  simp only [V10.loop_go, EM.bind_apply, EM.get_apply, hrun,
    eq_self_iff_true, if_true, hexec, hg, EM.modifyS_apply, EM.pure_apply]
  split <;> rfl

/-- Executing the body line `u -a -|s P2M81:cxba 1|-]` accumulates +1 onto
the counter cell `P00281` and changes nothing else. -/
theorem V10_exec_inc (s : EditorState) :
    V10.exec_body ["u -a -|s P2M81:cxba 1|-]"] s = (Except.ok (),
      { s with editor_memory := dictSet s.editor_memory "P00281"
                 (dictGet s.editor_memory "P00281" 0 + 1) }) := rfl

/-- C4: if the counter cell holds 0 when the loop is activated, every full
pass over the body adds exactly +1 to it (leaving the running flag and the
termination constant alone), and the termination constant is 3, then the
loop executes exactly 3 passes and `loop_running` is false afterwards; and
in general the loop stops right after the first pass at whose end the
counter is `>=` the termination constant (reaching-or-exceeding, not
equality), with that single pass counted. -/
theorem C4_loop_termination :
    (∀ (body : List String) (fuel : Nat), 3 ≤ fuel →
      ∀ s0 : EditorState, s0.loop_running = true →
        s0.terminate_constant = 3 →
        dictGet s0.editor_memory "P00281" 0 = 0 →
        (∀ s : EditorState, ∃ s' : EditorState,
          V10.exec_body body s = (Except.ok (), s') ∧
          dictGet s'.editor_memory "P00281" 0
            = dictGet s.editor_memory "P00281" 0 + 1 ∧
          s'.loop_running = s.loop_running ∧
          s'.terminate_constant = s.terminate_constant) →
        ∃ sf : EditorState,
          V10.parse_loop_body fuel body s0 = (Except.ok 3, sf) ∧
          sf.loop_running = false) ∧
    (∀ (body : List String) (fuel : Nat) (s s' : EditorState),
      s.loop_running = true →
      V10.exec_body body s = (Except.ok (), s') →
      dictGet s'.editor_memory "P00281" 0 ≥ s'.terminate_constant →
      V10.parse_loop_body (fuel + 1) body s
        = (Except.ok 1, { s' with loop_running := false })) := by
  constructor
  · intro body fuel hfuel s0 hrun hc h0 hbody
    obtain ⟨f, rfl⟩ : ∃ f, fuel = f + 3 := ⟨fuel - 3, by omega⟩
    obtain ⟨s1, he1, hv1, hr1, ht1⟩ := hbody s0
    obtain ⟨s2, he2, hv2, hr2, ht2⟩ := hbody s1
    obtain ⟨s3, he3, hv3, hr3, ht3⟩ := hbody s2
    have hv1' : dictGet s1.editor_memory "P00281" 0 = 1 := by
      rw [hv1, h0]
      decide
    have hv2' : dictGet s2.editor_memory "P00281" 0 = 2 := by
      rw [hv2, hv1']
      decide
    have hv3' : dictGet s3.editor_memory "P00281" 0 = 3 := by
      rw [hv3, hv2']
      decide
    have ht1' : s1.terminate_constant = 3 := by rw [ht1, hc]
    have ht2' : s2.terminate_constant = 3 := by rw [ht2, ht1']
    have ht3' : s3.terminate_constant = 3 := by rw [ht3, ht2']
    have hr1' : s1.loop_running = true := by rw [hr1, hrun]
    have hr2' : s2.loop_running = true := by rw [hr2, hr1']
    refine ⟨{ s3 with loop_running := false }, ?_, rfl⟩
    have step1 : V10.loop_go body (f + 3) 0 s0 =
        if dictGet s1.editor_memory "P00281" 0 ≥ s1.terminate_constant then
          V10.loop_go body (f + 2) (0 + 1) { s1 with loop_running := false }
        else V10.loop_go body (f + 2) (0 + 1) s1 :=
      V10_loop_go_step body (f + 2) 0 s0 s1 hrun he1
    have step2 : V10.loop_go body (f + 2) (0 + 1) s1 =
        if dictGet s2.editor_memory "P00281" 0 ≥ s2.terminate_constant then
          V10.loop_go body (f + 1) (0 + 1 + 1) { s2 with loop_running := false }
        else V10.loop_go body (f + 1) (0 + 1 + 1) s2 :=
      V10_loop_go_step body (f + 1) (0 + 1) s1 s2 hr1' he2
    have step3 : V10.loop_go body (f + 1) (0 + 1 + 1) s2 =
        if dictGet s3.editor_memory "P00281" 0 ≥ s3.terminate_constant then
          V10.loop_go body f (0 + 1 + 1 + 1) { s3 with loop_running := false }
        else V10.loop_go body f (0 + 1 + 1 + 1) s3 :=
      V10_loop_go_step body f (0 + 1 + 1) s2 s3 hr2' he3
    have hn1 : ¬ (dictGet s1.editor_memory "P00281" 0 ≥ s1.terminate_constant) := by
      rw [hv1', ht1']
      decide
    have hn2 : ¬ (dictGet s2.editor_memory "P00281" 0 ≥ s2.terminate_constant) := by
      rw [hv2', ht2']
      decide
    have hy3 : dictGet s3.editor_memory "P00281" 0 ≥ s3.terminate_constant := by
      rw [hv3', ht3']
    show V10.loop_go body (f + 3) 0 s0 = _
    rw [step1, if_neg hn1, step2, if_neg hn2, step3, if_pos hy3]
    exact V10_loop_go_stop body f (0 + 1 + 1 + 1) _ rfl
  · intro body fuel s s' hrun hexec hge
    show V10.loop_go body (fuel + 1) 0 s = _
    rw [V10_loop_go_step body fuel 0 s s' hrun hexec, if_pos hge]
    exact V10_loop_go_stop body fuel (0 + 1) _ rfl

/-- C4 (witness): with the body `u -a -|s P2M81:cxba 1|-]` (which adds +1
to the counter each pass), counter starting at 0 and constant 3, the loop
makes exactly 3 passes; with a +2-per-pass body and constant 1 it stops
after its first pass with the counter at 2 — reaching-or-exceeding, never
equal. -/
theorem C4_witness :
    (∃ sf : EditorState,
      V10.parse_loop_body 5 ["u -a -|s P2M81:cxba 1|-]"]
          { initState false with loop_running := true, terminate_constant := 3 }
        = (Except.ok 3, sf) ∧ sf.loop_running = false) ∧
    V10.parse_loop_body 4 ["u -a -|s P2M81:cxba 2|-]"]
        { initState false with loop_running := true, terminate_constant := 1 }
      = (Except.ok 1,
        { editor_memory := [("P00281", 2)], filesC := [], filesD := [],
          dirC := false, dirD := false, loop_running := false,
          terminate_constant := 1 }) := by
  constructor
  · exact C4_loop_termination.1 ["u -a -|s P2M81:cxba 1|-]"] 5 (by omega)
      { initState false with loop_running := true, terminate_constant := 3 }
      rfl rfl rfl
      (fun s => ⟨_, V10_exec_inc s,
        dictGet_dictSet_self s.editor_memory "P00281"
          (dictGet s.editor_memory "P00281" 0 + 1) 0, rfl, rfl⟩)
  · exact C4_loop_termination.2 ["u -a -|s P2M81:cxba 2|-]"] 3
      { initState false with loop_running := true, terminate_constant := 1 }
      { editor_memory := [("P00281", 2)], filesC := [], filesD := [],
        dirC := false, dirD := false, loop_running := true,
        terminate_constant := 1 }
      rfl rfl (by decide)
